import Mathlib

/-!
# Cilium `NetworkConfig` API types

A shallow embedding of `pkg/apis/cilium/v1alpha1/types_network.go`.

* A Go named string type (`type TunnelMode string`) is a one-field structure
  around `String`; its `const` block is a list of the declared constants, in
  source order.
* A Go pointer field (`*bool`, `*string`, `*int32`, `*KubeProxy`, ...) is an
  `Option`: `none` is the nil pointer (the unset state), `some v` is a pointer
  to the value `v`.  Equality is equality of the pointed-to values.
* A Go `int32` is an integer in the signed 32-bit range.
* Every struct declaration is embedded twice: as a Lean structure (the values)
  and as a table of its field declarations (Go name, Go type, JSON key and tag
  options), in source order.

The source file declares types only.  The operations `Merge`,
`ApplyDefaults` and `Validate` of the specification have no counterpart in
it; they are modelled from the specification, over the types of the source.
-/

namespace Cilium

/-! ## Basic types -/

/-- Go `int32`: an integer in the signed 32-bit range. -/
abbrev GoInt32 : Type := { i : Int // -2147483648 ≤ i ∧ i ≤ 2147483647 }

/-! ## Enumerated option types and their declared constants -/

/-- IdentityAllocationMode selects how identities are shared between cilium
nodes by setting how they are stored (`type IdentityAllocationMode string`). -/
structure IdentityAllocationMode where
  val : String
deriving DecidableEq, Repr

/-- CRD defines the crd IdentityAllocationMode type. -/
def CRD : IdentityAllocationMode := ⟨"crd"⟩
/-- KVStore defines the kvstore IdentityAllocationMode type. -/
def KVStore : IdentityAllocationMode := ⟨"kvstore"⟩

/-- The `const` block of `IdentityAllocationMode`. -/
def IdentityAllocationMode.declared : List IdentityAllocationMode := [CRD, KVStore]

/-- TunnelMode defines what tunnel mode to use for Cilium (`type TunnelMode string`). -/
structure TunnelMode where
  val : String
deriving DecidableEq, Repr

/-- VXLan defines the vxlan tunnel mode. -/
def VXLan : TunnelMode := ⟨"vxlan"⟩
/-- Geneve defines the geneve tunnel mode. -/
def Geneve : TunnelMode := ⟨"geneve"⟩
/-- Disabled defines the disabled tunnel mode. -/
def Disabled : TunnelMode := ⟨"disabled"⟩

/-- The `const` block of `TunnelMode`. -/
def TunnelMode.declared : List TunnelMode := [VXLan, Geneve, Disabled]

/-- KubeProxyReplacementMode defines which mode should kube-proxy run in
(`type KubeProxyReplacementMode string`). -/
structure KubeProxyReplacementMode where
  val : String
deriving DecidableEq, Repr

/-- Strict defines the strict kube-proxy replacement mode. -/
def Strict : KubeProxyReplacementMode := ⟨"strict"⟩
/-- Probe defines the probe kube-proxy replacement mode. -/
def Probe : KubeProxyReplacementMode := ⟨"probe"⟩
/-- Partial defines the partial kube-proxy replacement mode. -/
def Partial : KubeProxyReplacementMode := ⟨"partial"⟩

/-- The `const` block of `KubeProxyReplacementMode`. -/
def KubeProxyReplacementMode.declared : List KubeProxyReplacementMode := [Strict, Probe, Partial]

/-- NodePortMode defines how NodePort services are enabled (`type NodePortMode string`). -/
structure NodePortMode where
  val : String
deriving DecidableEq, Repr

/-- Hybird (spelled so in the source) defines the hybrid nodeport mode. -/
def Hybird : NodePortMode := ⟨"hybrid"⟩

/-- The `const` block of `NodePortMode`. -/
def NodePortMode.declared : List NodePortMode := [Hybird]

/-- Store defines the kubernetes storage backend (`type Store string`). -/
structure Store where
  val : String
deriving DecidableEq, Repr

/-- Kubernetes defines the kubernetes CRD store type. -/
def Kubernetes : Store := ⟨"kubernetes"⟩
/-- ETCD defines the ETCD store type. -/
def ETCD : Store := ⟨"etcd"⟩

/-- The `const` block of `Store`. -/
def Store.declared : List Store := [Kubernetes, ETCD]

/-! ## Struct types (values) -/

/-- Hubble enablement for cilium. -/
structure Hubble where
  /-- Enabled indicates whether hubble is enabled or not (`bool`). -/
  Enabled : Bool
deriving DecidableEq, Repr

/-- IPv6 enablement for cilium. -/
structure IPv6 where
  /-- Enabled indicates whether IPv6 is enabled or not (`bool`). -/
  Enabled : Bool
deriving DecidableEq, Repr

/-- Nodeport enablement for cilium. -/
structure Nodeport where
  /-- Enabled is used to define whether Nodeport is required or not (`bool`). -/
  Enabled : Bool
  /-- Mode is the mode of NodePort feature (`NodePortMode`). -/
  Mode : NodePortMode
deriving DecidableEq, Repr

/-- KubeProxy configuration for cilium. -/
structure KubeProxy where
  /-- Enabled specifies whether kubeproxy is disabled (`*bool`). -/
  Enabled : Option Bool
  /-- ServiceHost specify the controlplane node IP Address (`*string`). -/
  ServiceHost : Option String
  /-- ServicePort specify the kube-apiserver port number (`*int32`). -/
  ServicePort : Option GoInt32
deriving DecidableEq, Repr

/-- The type `metav1.TypeMeta` that the source imports from
`k8s.io/apimachinery` and embeds inline: the kind and the API version of the
serialized object, both plain strings. -/
structure TypeMeta where
  Kind : String
  APIVersion : String
deriving DecidableEq, Repr

/-- NetworkConfig is a struct representing the configmap for the cilium
networking plugin. -/
structure NetworkConfig where
  /-- The embedded `metav1.TypeMeta`. -/
  TypeMeta : TypeMeta
  /-- Debug configuration to be enabled or not (`*bool`). -/
  Debug : Option Bool
  /-- PSPEnabled configuration (`*bool`). -/
  PSPEnabled : Option Bool
  /-- KubeProxy configuration to be enabled or not (`*KubeProxy`). -/
  KubeProxy : Option KubeProxy
  /-- Hubble configuration to be enabled or not (`*Hubble`). -/
  Hubble : Option Hubble
  /-- TunnelMode configuration (`*TunnelMode`). -/
  TunnelMode : Option TunnelMode
  /-- Store can be either Kubernetes or etcd (`*Store`). -/
  Store : Option Store
  /-- Enable IPv6 (`*IPv6`). -/
  IPv6 : Option IPv6
deriving DecidableEq, Repr

/-! ## Struct types (field declarations) -/

/-- One field declaration of a Go struct: the field name, the type as written,
the key of its `json` tag, the tag options `omitempty` and `inline`, and
whether the declaration carries the `+optional` marker. -/
structure FieldDecl where
  name : String
  goType : String
  key : String
  omitempty : Bool
  inline : Bool
  optional : Bool
deriving DecidableEq, Repr

/-- Field declarations of `Hubble`. -/
def Hubble.fields : List FieldDecl :=
  [ ⟨"Enabled", "bool", "enabled", false, false, false⟩ ]

/-- Field declarations of `IPv6`. -/
def IPv6.fields : List FieldDecl :=
  [ ⟨"Enabled", "bool", "enabled", false, false, false⟩ ]

/-- Field declarations of `Nodeport`. -/
def Nodeport.fields : List FieldDecl :=
  [ ⟨"Enabled", "bool", "nodePortEnabled", false, false, false⟩,
    ⟨"Mode", "NodePortMode", "nodePortMode", false, false, false⟩ ]

/-- Field declarations of `KubeProxy`. -/
def KubeProxy.fields : List FieldDecl :=
  [ ⟨"Enabled", "*bool", "disabled", false, false, true⟩,
    ⟨"ServiceHost", "*string", "k8sServiceHost", true, false, true⟩,
    ⟨"ServicePort", "*int32", "k8sServicePort", true, false, true⟩ ]

/-- Field declarations of `NetworkConfig`: the inline `metav1.TypeMeta`
(tag `json:",inline"`, so with an empty key) and the configuration fields. -/
def NetworkConfig.fields : List FieldDecl :=
  [ ⟨"TypeMeta", "metav1.TypeMeta", "", false, true, false⟩,
    ⟨"Debug", "*bool", "debug", true, false, true⟩,
    ⟨"PSPEnabled", "*bool", "psp", true, false, true⟩,
    ⟨"KubeProxy", "*KubeProxy", "kubeproxy", true, false, true⟩,
    ⟨"Hubble", "*Hubble", "hubble", true, false, true⟩,
    ⟨"TunnelMode", "*TunnelMode", "tunnel", true, false, true⟩,
    ⟨"Store", "*Store", "store", true, false, true⟩,
    ⟨"IPv6", "*IPv6", "ipv6", true, false, true⟩ ]

/-- The configuration fields of a struct: its declarations that are not
inline embeddings. -/
def configFields (fs : List FieldDecl) : List FieldDecl :=
  fs.filter (fun f => !f.inline)

/-- The JSON key bound to the field called `name`, if the struct declares it. -/
def keyOf (fs : List FieldDecl) (name : String) : Option String :=
  (fs.find? (fun f => f.name == name)).map (fun f => f.key)

/-- The field bound to the JSON key `key`, if any field of the struct is. -/
def fieldOf (fs : List FieldDecl) (key : String) : Option String :=
  (fs.find? (fun f => f.key == key)).map (fun f => f.name)

/-- Whether a Go type, as written, is a pointer type. -/
def isPointer (goType : String) : Bool :=
  match goType.data with
  | c :: _ => c == '*'
  | [] => false

/-! ## Operations of the specification

The source declares no function.  The definitions below are modelled from
the specification (§4) over the source's types, so they range over the
fields that `NetworkConfig` declares: the inline `TypeMeta` and the seven
configuration fields.  `Nodeport` is declared in the source but no field of
`NetworkConfig` holds one, hence no operation on a `NetworkConfig` reads or
writes a `Nodeport`.
-/

/-- Modelled from the spec: the membership check `IsValid` of the enumerated
option registry (§4.1) is missing from the source; the registry of tunnel
modes is the source's `const` block. -/
def TunnelMode.IsValid (v : TunnelMode) : Bool := decide (v ∈ TunnelMode.declared)

/-- Modelled from the spec: the membership check `IsValid` of the enumerated
option registry (§4.1) is missing from the source; the registry of stores is
the source's `const` block. -/
def Store.IsValid (v : Store) : Bool := decide (v ∈ Store.declared)

/-- The all-unset configuration: the Go zero value `NetworkConfig{}`. -/
def NetworkConfig.unset : NetworkConfig :=
  { TypeMeta := ⟨"", ""⟩, Debug := none, PSPEnabled := none, KubeProxy := none,
    Hubble := none, TunnelMode := none, Store := none, IPv6 := none }

/-- Modelled from the spec: the overlay rule of `Merge` for one tri-state
field (§4.3) is missing from the source: "if the overlay's field is set, the
result takes the overlay's value; otherwise the result takes the base's
value (which may itself be unset)". -/
def mergeField {α : Type} (base overlay : Option α) : Option α :=
  match overlay with
  | some v => some v
  | none => base

/-- Modelled from the spec: `Merge` (§4.3) is missing from the source and the
specification's data model has no `TypeMeta`.  The embedded `TypeMeta` is not
a pointer, so its unset state is the Go zero value (both strings empty); with
that reading it follows the rule of every other field, as a whole unit. -/
def mergeTypeMeta (base overlay : TypeMeta) : TypeMeta :=
  if overlay = ⟨"", ""⟩ then base else overlay

/-- Modelled from the spec: `Merge(base, overlay)` (§4.3) is missing from the
source.  Every field is chosen independently by the overlay rule; a nested
entity is one field, taken as a whole. -/
def Merge (base overlay : NetworkConfig) : NetworkConfig :=
  { TypeMeta := mergeTypeMeta base.TypeMeta overlay.TypeMeta
    Debug := mergeField base.Debug overlay.Debug
    PSPEnabled := mergeField base.PSPEnabled overlay.PSPEnabled
    KubeProxy := mergeField base.KubeProxy overlay.KubeProxy
    Hubble := mergeField base.Hubble overlay.Hubble
    TunnelMode := mergeField base.TunnelMode overlay.TunnelMode
    Store := mergeField base.Store overlay.Store
    IPv6 := mergeField base.IPv6 overlay.IPv6 }

/-- Modelled from the spec: the rule of `ApplyDefaults` for one field (§4.4)
is missing from the source: a field that is still unset is set to its
documented default, a set field is never overwritten. -/
def defaultField {α : Type} (dflt : α) (field : Option α) : Option α :=
  match field with
  | some v => some v
  | none => some dflt

/-- Modelled from the spec: `ApplyDefaults` (§4.4) is missing from the source.
The defaults are those of the table of §4.4: `Debug` false, `PSPEnabled`
false, `Hubble.Enabled` false, `TunnelMode` vxlan, `Store` kubernetes,
`IPv6.Enabled` false; an unset `KubeProxy` remains absent. -/
def ApplyDefaults (cfg : NetworkConfig) : NetworkConfig :=
  { TypeMeta := cfg.TypeMeta
    Debug := defaultField false cfg.Debug
    PSPEnabled := defaultField false cfg.PSPEnabled
    KubeProxy := cfg.KubeProxy
    Hubble := defaultField { Enabled := false } cfg.Hubble
    TunnelMode := defaultField VXLan cfg.TunnelMode
    Store := defaultField Kubernetes cfg.Store
    IPv6 := defaultField { Enabled := false } cfg.IPv6 }

/-- Modelled from the spec: a complete configuration (§4.4, "after this step
every top-level field is set (nested entities may remain deliberately absent
when the feature is off)"): every field that has a documented default is
set; `KubeProxy` may be absent. -/
def NetworkConfig.IsComplete (cfg : NetworkConfig) : Prop :=
  cfg.Debug.isSome = true ∧ cfg.PSPEnabled.isSome = true ∧ cfg.Hubble.isSome = true ∧
  cfg.TunnelMode.isSome = true ∧ cfg.Store.isSome = true ∧ cfg.IPv6.isSome = true

instance (cfg : NetworkConfig) : Decidable cfg.IsComplete := by
  unfold NetworkConfig.IsComplete; infer_instance

/-- Modelled from the spec: the kinds of user-correctable violation (§4.5, §7). -/
inductive ErrorKind where
  | InvalidEnumValue
  | MissingCompanionField
  | OutOfRange
deriving DecidableEq, Repr

/-- Modelled from the spec: the observed value that a validation error
carries (§4.5): a string, an integer, or nothing when the offending field is
unset. -/
inductive Observed where
  | str (s : String)
  | int (i : Int)
  | unset
deriving DecidableEq, Repr

/-- Modelled from the spec: a `ValidationError` (§4.5) carries the offending
field path, the kind of violation and the observed value. -/
structure ValidationError where
  field : String
  kind : ErrorKind
  value : Observed
deriving DecidableEq, Repr

/-- Modelled from the spec: invariant 1 of §3 for `TunnelMode`, missing from
the source: a set tunnel mode outside its registry is an `InvalidEnumValue`. -/
def validateTunnelMode (cfg : NetworkConfig) : List ValidationError :=
  match cfg.TunnelMode with
  | some m => if m.IsValid then [] else [⟨"TunnelMode", .InvalidEnumValue, .str m.val⟩]
  | none => []

/-- Modelled from the spec: invariant 1 of §3 for `Store`, missing from the
source: a set store outside its registry is an `InvalidEnumValue`. -/
def validateStore (cfg : NetworkConfig) : List ValidationError :=
  match cfg.Store with
  | some s => if s.IsValid then [] else [⟨"Store", .InvalidEnumValue, .str s.val⟩]
  | none => []

/-- Modelled from the spec: invariant 2 of §3, missing from the source:
`ServiceHost` and `ServicePort` are jointly mandatory; the error names the
companion that is missing. -/
def validateCompanion (cfg : NetworkConfig) : List ValidationError :=
  match cfg.KubeProxy with
  | none => []
  | some kp =>
    match kp.ServiceHost, kp.ServicePort with
    | some _, none => [⟨"KubeProxy.ServicePort", .MissingCompanionField, .unset⟩]
    | none, some _ => [⟨"KubeProxy.ServiceHost", .MissingCompanionField, .unset⟩]
    | _, _ => []

/-- Modelled from the spec: invariant 3 of §3, missing from the source:
`ServicePort`, if set, lies in `[1, 65535]`. -/
def validateServicePort (cfg : NetworkConfig) : List ValidationError :=
  match cfg.KubeProxy with
  | none => []
  | some kp =>
    match kp.ServicePort with
    | none => []
    | some p =>
      if 1 ≤ p.val ∧ p.val ≤ 65535 then []
      else [⟨"KubeProxy.ServicePort", .OutOfRange, .int p.val⟩]

/-- Modelled from the spec: `Validate` (§4.5) is missing from the source.  It
runs the rules of invariants 1 to 3 independently and accumulates every
violation. -/
def Validate (cfg : NetworkConfig) : List ValidationError :=
  validateTunnelMode cfg ++ validateStore cfg ++ validateCompanion cfg ++ validateServicePort cfg

/-- The errors of one kind in an error set. -/
def errorsOfKind (k : ErrorKind) (es : List ValidationError) : List ValidationError :=
  es.filter (fun e => e.kind == k)

/-- A configuration is accepted when `Validate` reports nothing. -/
def Accepted (cfg : NetworkConfig) : Prop := Validate cfg = []

instance (cfg : NetworkConfig) : Decidable (Accepted cfg) := by
  unfold Accepted; infer_instance

/-- A `KubeProxy` with the given sub-fields inside the all-unset configuration. -/
def withKubeProxy (kp : KubeProxy) : NetworkConfig :=
  { NetworkConfig.unset with KubeProxy := some kp }

example : Validate { NetworkConfig.unset with TunnelMode := some ⟨"gre"⟩, Store := some ⟨"mongo"⟩ } =
    [⟨"TunnelMode", .InvalidEnumValue, .str "gre"⟩, ⟨"Store", .InvalidEnumValue, .str "mongo"⟩] := by
  decide
example : Validate (withKubeProxy ⟨none, some "h", some ⟨70000, by decide⟩⟩) =
    [⟨"KubeProxy.ServicePort", .OutOfRange, .int 70000⟩] := by decide
example : Validate (withKubeProxy ⟨none, some "h", some ⟨6443, by decide⟩⟩) = [] := by decide
example : Validate (withKubeProxy ⟨some true, some "10.0.0.1", none⟩) =
    [⟨"KubeProxy.ServicePort", .MissingCompanionField, .unset⟩] := by decide
example : ApplyDefaults (ApplyDefaults NetworkConfig.unset) = ApplyDefaults NetworkConfig.unset := by
  decide
example : Merge NetworkConfig.unset (withKubeProxy ⟨none, some "h", none⟩) =
    withKubeProxy ⟨none, some "h", none⟩ := by decide

example : keyOf KubeProxy.fields "Enabled" = some "disabled" := by decide
example : fieldOf KubeProxy.fields "enabled" = none := by decide
example : (configFields NetworkConfig.fields).length = 7 := by decide
example : (NetworkConfig.fields.map (fun f => isPointer f.goType)) =
    [false, true, true, true, true, true, true, true] := by decide

/-- The struct types that the source declares besides `NetworkConfig`, in
source order. -/
def structTypes : List String := ["Hubble", "IPv6", "Nodeport", "KubeProxy"]

/-- The named string types that the source declares, in source order. -/
def enumTypes : List String :=
  ["IdentityAllocationMode", "TunnelMode", "KubeProxyReplacementMode", "NodePortMode", "Store"]

/-- A Go type as written, without the leading `*` of a pointer type. -/
def baseType (goType : String) : String :=
  match goType.data with
  | c :: cs => if c == '*' then String.mk cs else goType
  | [] => goType

/-- The nested entities of a struct: its configuration fields whose type is
one of the declared struct types, or a pointer to one. -/
def nestedEntities (fs : List FieldDecl) : List String :=
  ((configFields fs).filter (fun f => decide (baseType f.goType ∈ structTypes))).map
    (fun f => f.name)

/-- The enumerated fields of a struct: its configuration fields whose type is
one of the declared named string types, or a pointer to one. -/
def enumFields (fs : List FieldDecl) : List String :=
  ((configFields fs).filter (fun f => decide (baseType f.goType ∈ enumTypes))).map
    (fun f => f.name)

/-- The field declarations of a declared struct type, by its name. -/
def fieldsOf (structType : String) : List FieldDecl :=
  if structType = "Hubble" then Hubble.fields
  else if structType = "IPv6" then IPv6.fields
  else if structType = "Nodeport" then Nodeport.fields
  else if structType = "KubeProxy" then KubeProxy.fields
  else []

/-- The enumerated field paths of a struct: its own enumerated fields, and
for each nested entity `E` the paths `E.F` of the enumerated fields `F` of
the entity's struct type. -/
def enumPaths (fs : List FieldDecl) : List String :=
  ((configFields fs).map (fun f =>
    if baseType f.goType ∈ enumTypes then [f.name]
    else (enumFields (fieldsOf (baseType f.goType))).map (fun n => f.name ++ "." ++ n))).flatten

/-- The names of the configuration fields that a configuration has set, in
declaration order. -/
def NetworkConfig.setFields (cfg : NetworkConfig) : List String :=
  (if cfg.Debug.isSome then ["Debug"] else []) ++
  (if cfg.PSPEnabled.isSome then ["PSPEnabled"] else []) ++
  (if cfg.KubeProxy.isSome then ["KubeProxy"] else []) ++
  (if cfg.Hubble.isSome then ["Hubble"] else []) ++
  (if cfg.TunnelMode.isSome then ["TunnelMode"] else []) ++
  (if cfg.Store.isSome then ["Store"] else []) ++
  (if cfg.IPv6.isSome then ["IPv6"] else [])

/-- A configuration with every field set: `KubeProxy` with all three
sub-fields, tunnel mode geneve, store etcd. -/
def fullConfig : NetworkConfig :=
  { TypeMeta := ⟨"NetworkConfig", "v1alpha1"⟩
    Debug := some true
    PSPEnabled := some true
    KubeProxy := some ⟨some true, some "h1", some ⟨6443, by decide⟩⟩
    Hubble := some ⟨true⟩
    TunnelMode := some Geneve
    Store := some ETCD
    IPv6 := some ⟨true⟩ }

/-- A configuration whose two enumerated fields are set outside their
registries, everything else unset. -/
def badEnumConfig : NetworkConfig :=
  { NetworkConfig.unset with TunnelMode := some ⟨"gre"⟩, Store := some ⟨"mongo"⟩ }

example : nestedEntities NetworkConfig.fields = ["KubeProxy", "Hubble", "IPv6"] := by decide
example : enumFields NetworkConfig.fields = ["TunnelMode", "Store"] := by decide
example : enumFields Nodeport.fields = ["Mode"] := by decide
example : enumPaths NetworkConfig.fields = ["TunnelMode", "Store"] := by decide
example : enumPaths (NetworkConfig.fields ++ [⟨"Nodeport", "*Nodeport", "nodeport", true, false, true⟩]) =
    ["TunnelMode", "Store", "Nodeport.Mode"] := by decide
example : fullConfig.setFields = (configFields NetworkConfig.fields).map (fun f => f.name) := by
  decide
example : (ApplyDefaults NetworkConfig.unset).setFields =
    ["Debug", "PSPEnabled", "Hubble", "TunnelMode", "Store", "IPv6"] := by decide

/-- The `KubeProxy.ServiceHost` of a configuration: unset when `KubeProxy` is
unset or when its `ServiceHost` is. -/
def NetworkConfig.serviceHost (cfg : NetworkConfig) : Option String :=
  match cfg.KubeProxy with
  | some kp => kp.ServiceHost
  | none => none

/-- The `KubeProxy.ServicePort` of a configuration: unset when `KubeProxy` is
unset or when its `ServicePort` is. -/
def NetworkConfig.servicePort (cfg : NetworkConfig) : Option GoInt32 :=
  match cfg.KubeProxy with
  | some kp => kp.ServicePort
  | none => none

/-! ## Shared lemmas -/

/-- Equality of two optional values: both unset, or both set to equal values. -/
lemma option_eq_iff {α : Type} (a b : Option α) :
    a = b ↔ (a = none ∧ b = none) ∨ ∃ v w, a = some v ∧ b = some w ∧ v = w := by
  cases a <;> cases b <;> simp

/-- Merging an unset base field yields the overlay field. -/
lemma mergeField_none_left {α : Type} (x : Option α) : mergeField none x = x := by
  cases x <;> rfl

/-- The overlay rule, read as a choice on the overlay's set-state. -/
lemma mergeField_eq_ite {α : Type} (b o : Option α) :
    mergeField b o = if o.isSome then o else b := by
  cases o <;> rfl

/-- Merging into the zero envelope yields the overlay's envelope. -/
lemma mergeTypeMeta_zero_left (t : TypeMeta) : mergeTypeMeta ⟨"", ""⟩ t = t := by
  unfold mergeTypeMeta
  split
  · next h => exact h.symm
  · rfl

/-- The tunnel-mode registry accepts exactly the three declared strings. -/
lemma tunnelMode_isValid_iff (m : TunnelMode) :
    m.IsValid = true ↔ m.val ∈ ["vxlan", "geneve", "disabled"] := by
  rcases m with ⟨s⟩
  simp [TunnelMode.IsValid, TunnelMode.declared, VXLan, Geneve, Disabled]

/-- The store registry accepts exactly the two declared strings. -/
lemma store_isValid_iff (m : Store) :
    m.IsValid = true ↔ m.val ∈ ["kubernetes", "etcd"] := by
  rcases m with ⟨s⟩
  simp [Store.IsValid, Store.declared, Kubernetes, ETCD]

/-- The companion rule never reports an enum or a range violation. -/
lemma validateCompanion_kind (cfg : NetworkConfig) :
    ∀ e ∈ validateCompanion cfg, e.kind = ErrorKind.MissingCompanionField := by
  intro e he
  unfold validateCompanion at he
  split at he
  · simp at he
  · split at he <;> simp at he <;> simp [he]

/-- The range rule reports range violations only. -/
lemma validateServicePort_kind (cfg : NetworkConfig) :
    ∀ e ∈ validateServicePort cfg, e.kind = ErrorKind.OutOfRange := by
  intro e he
  unfold validateServicePort at he
  split at he
  · simp at he
  · split at he
    · simp at he
    · split at he <;> simp at he
      simp [he]

/-- The tunnel-mode rule reports enum violations only. -/
lemma validateTunnelMode_kind (cfg : NetworkConfig) :
    ∀ e ∈ validateTunnelMode cfg, e.kind = ErrorKind.InvalidEnumValue := by
  intro e he
  unfold validateTunnelMode at he
  split at he
  · split at he <;> simp at he
    simp [he]
  · simp at he

/-- The store rule reports enum violations only. -/
lemma validateStore_kind (cfg : NetworkConfig) :
    ∀ e ∈ validateStore cfg, e.kind = ErrorKind.InvalidEnumValue := by
  intro e he
  unfold validateStore at he
  split at he
  · split at he <;> simp at he
    simp [he]
  · simp at he

/-- Selecting a kind from errors that all have another kind leaves nothing. -/
lemma errorsOfKind_eq_nil (k k2 : ErrorKind) (es : List ValidationError)
    (h : ∀ e ∈ es, e.kind = k2) (hk : k2 ≠ k) : errorsOfKind k es = [] := by
  unfold errorsOfKind
  rw [List.filter_eq_nil_iff]
  intro e he
  simp [h e he, hk]

/-- Selecting a kind from errors that all have that kind keeps them all. -/
lemma errorsOfKind_eq_self (k : ErrorKind) (es : List ValidationError)
    (h : ∀ e ∈ es, e.kind = k) : errorsOfKind k es = es := by
  unfold errorsOfKind
  rw [List.filter_eq_self]
  intro e he
  simp [h e he]

/-- Selecting a kind distributes over the four rules of `Validate`. -/
lemma errorsOfKind_Validate (k : ErrorKind) (cfg : NetworkConfig) :
    errorsOfKind k (Validate cfg) =
      errorsOfKind k (validateTunnelMode cfg) ++ errorsOfKind k (validateStore cfg) ++
        errorsOfKind k (validateCompanion cfg) ++ errorsOfKind k (validateServicePort cfg) := by
  simp [errorsOfKind, Validate, List.filter_append]

/-- The enum violations of a configuration are those of its two enum rules. -/
lemma invalidEnum_Validate (cfg : NetworkConfig) :
    errorsOfKind .InvalidEnumValue (Validate cfg) =
      validateTunnelMode cfg ++ validateStore cfg := by
  rw [errorsOfKind_Validate,
    errorsOfKind_eq_self _ _ (validateTunnelMode_kind cfg),
    errorsOfKind_eq_self _ _ (validateStore_kind cfg),
    errorsOfKind_eq_nil _ _ _ (validateCompanion_kind cfg) (by decide),
    errorsOfKind_eq_nil _ _ _ (validateServicePort_kind cfg) (by decide)]
  simp

/-- The companion violations of a configuration are those of the companion rule. -/
lemma missingCompanion_Validate (cfg : NetworkConfig) :
    errorsOfKind .MissingCompanionField (Validate cfg) = validateCompanion cfg := by
  rw [errorsOfKind_Validate,
    errorsOfKind_eq_nil _ _ _ (validateTunnelMode_kind cfg) (by decide),
    errorsOfKind_eq_nil _ _ _ (validateStore_kind cfg) (by decide),
    errorsOfKind_eq_self _ _ (validateCompanion_kind cfg),
    errorsOfKind_eq_nil _ _ _ (validateServicePort_kind cfg) (by decide)]
  simp

/-- The range violations of a configuration are those of the range rule. -/
lemma outOfRange_Validate (cfg : NetworkConfig) :
    errorsOfKind .OutOfRange (Validate cfg) = validateServicePort cfg := by
  rw [errorsOfKind_Validate,
    errorsOfKind_eq_nil _ _ _ (validateTunnelMode_kind cfg) (by decide),
    errorsOfKind_eq_nil _ _ _ (validateStore_kind cfg) (by decide),
    errorsOfKind_eq_nil _ _ _ (validateCompanion_kind cfg) (by decide),
    errorsOfKind_eq_self _ _ (validateServicePort_kind cfg)]
  simp

/-- A configuration sets none but the seven declared configuration fields. -/
lemma setFields_all_declared (cfg : NetworkConfig) :
    cfg.setFields.all
      (fun n => decide (n ∈ ["Debug", "PSPEnabled", "KubeProxy", "Hubble", "TunnelMode",
        "Store", "IPv6"])) = true := by
  rcases cfg with ⟨tm, d, p, k, h, t, s, i⟩
  cases d <;> cases p <;> cases k <;> cases h <;> cases t <;> cases s <;> cases i <;> rfl

/-- Every error of `Validate` names one of four fields. -/
lemma Validate_fields (cfg : NetworkConfig) :
    (Validate cfg).all
      (fun e => decide (e.field ∈ ["TunnelMode", "Store", "KubeProxy.ServiceHost",
        "KubeProxy.ServicePort"])) = true := by
  rw [List.all_eq_true]
  intro e he
  simp only [Validate, List.mem_append] at he
  rcases he with ((he | he) | he) | he
  · unfold validateTunnelMode at he
    split at he
    · split at he <;> simp at he
      simp [he]
    · simp at he
  · unfold validateStore at he
    split at he
    · split at he <;> simp at he
      simp [he]
    · simp at he
  · unfold validateCompanion at he
    split at he
    · simp at he
    · split at he <;> simp at he <;> simp [he]
  · unfold validateServicePort at he
    split at he
    · simp at he
    · split at he
      · simp at he
      · split at he <;> simp at he
        simp [he]

/-! ## The data model -/

/-- C1: every top-level setting of `NetworkConfig` (Debug, PSPEnabled,
KubeProxy, Hubble, TunnelMode, Store, IPv6) is optional in the tri-state
sense.  Each is declared as a pointer with the `+optional` marker; for each
field the unset state differs from every set value, whatever the other
fields hold (so Debug unset is not Debug false, likewise PSPEnabled); and two
values of a field are equal exactly when both are unset or both are set to
equal values. -/
theorem C1_top_level_settings_are_tristate :
    (configFields NetworkConfig.fields).map (fun f => f.name) =
      ["Debug", "PSPEnabled", "KubeProxy", "Hubble", "TunnelMode", "Store", "IPv6"] ∧
    (configFields NetworkConfig.fields).all
      (fun f => isPointer f.goType && f.optional && f.omitempty) = true ∧
    (∀ (c : NetworkConfig) (v : Bool),
      ({ c with Debug := none } : NetworkConfig) ≠ { c with Debug := some v }) ∧
    (∀ (c : NetworkConfig) (v : Bool),
      ({ c with PSPEnabled := none } : NetworkConfig) ≠ { c with PSPEnabled := some v }) ∧
    (∀ (c : NetworkConfig) (v : KubeProxy),
      ({ c with KubeProxy := none } : NetworkConfig) ≠ { c with KubeProxy := some v }) ∧
    (∀ (c : NetworkConfig) (v : Hubble),
      ({ c with Hubble := none } : NetworkConfig) ≠ { c with Hubble := some v }) ∧
    (∀ (c : NetworkConfig) (v : TunnelMode),
      ({ c with TunnelMode := none } : NetworkConfig) ≠ { c with TunnelMode := some v }) ∧
    (∀ (c : NetworkConfig) (v : Store),
      ({ c with Store := none } : NetworkConfig) ≠ { c with Store := some v }) ∧
    (∀ (c : NetworkConfig) (v : IPv6),
      ({ c with IPv6 := none } : NetworkConfig) ≠ { c with IPv6 := some v }) ∧
    ({ NetworkConfig.unset with Debug := none } : NetworkConfig) ≠
      { NetworkConfig.unset with Debug := some false } ∧
    ({ NetworkConfig.unset with PSPEnabled := none } : NetworkConfig) ≠
      { NetworkConfig.unset with PSPEnabled := some false } ∧
    (∀ c d : NetworkConfig, c.Debug = d.Debug ↔
      (c.Debug = none ∧ d.Debug = none) ∨ ∃ v w, c.Debug = some v ∧ d.Debug = some w ∧ v = w) ∧
    (∀ c d : NetworkConfig, c.PSPEnabled = d.PSPEnabled ↔
      (c.PSPEnabled = none ∧ d.PSPEnabled = none) ∨
        ∃ v w, c.PSPEnabled = some v ∧ d.PSPEnabled = some w ∧ v = w) ∧
    (∀ c d : NetworkConfig, c.KubeProxy = d.KubeProxy ↔
      (c.KubeProxy = none ∧ d.KubeProxy = none) ∨
        ∃ v w, c.KubeProxy = some v ∧ d.KubeProxy = some w ∧ v = w) ∧
    (∀ c d : NetworkConfig, c.Hubble = d.Hubble ↔
      (c.Hubble = none ∧ d.Hubble = none) ∨
        ∃ v w, c.Hubble = some v ∧ d.Hubble = some w ∧ v = w) ∧
    (∀ c d : NetworkConfig, c.TunnelMode = d.TunnelMode ↔
      (c.TunnelMode = none ∧ d.TunnelMode = none) ∨
        ∃ v w, c.TunnelMode = some v ∧ d.TunnelMode = some w ∧ v = w) ∧
    (∀ c d : NetworkConfig, c.Store = d.Store ↔
      (c.Store = none ∧ d.Store = none) ∨ ∃ v w, c.Store = some v ∧ d.Store = some w ∧ v = w) ∧
    (∀ c d : NetworkConfig, c.IPv6 = d.IPv6 ↔
      (c.IPv6 = none ∧ d.IPv6 = none) ∨ ∃ v w, c.IPv6 = some v ∧ d.IPv6 = some w ∧ v = w) := by
  refine ⟨by decide, by decide, ?_, ?_, ?_, ?_, ?_, ?_, ?_, by decide, by decide,
    fun c d => option_eq_iff _ _, fun c d => option_eq_iff _ _, fun c d => option_eq_iff _ _,
    fun c d => option_eq_iff _ _, fun c d => option_eq_iff _ _, fun c d => option_eq_iff _ _,
    fun c d => option_eq_iff _ _⟩
  · intro c v h
    have h1 := congrArg NetworkConfig.Debug h
    simp at h1
  · intro c v h
    have h1 := congrArg NetworkConfig.PSPEnabled h
    simp at h1
  · intro c v h
    have h1 := congrArg NetworkConfig.KubeProxy h
    simp at h1
  · intro c v h
    have h1 := congrArg NetworkConfig.Hubble h
    simp at h1
  · intro c v h
    have h1 := congrArg NetworkConfig.TunnelMode h
    simp at h1
  · intro c v h
    have h1 := congrArg NetworkConfig.Store h
    simp at h1
  · intro c v h
    have h1 := congrArg NetworkConfig.IPv6 h
    simp at h1

/-- C2: the enumerated option registries are exactly the closed sets
TunnelMode = {vxlan, geneve, disabled}, Store = {kubernetes, etcd},
NodePortMode = {hybrid}, IdentityAllocationMode = {crd, kvstore},
KubeProxyReplacementMode = {strict, probe, partial}: each declared constant
has the listed string as its value, the `const` block of each type declares
these constants and no other, and within each type the values are pairwise
distinct. -/
theorem C2_registries_are_the_closed_sets :
    (VXLan.val = "vxlan" ∧ Geneve.val = "geneve" ∧ Disabled.val = "disabled") ∧
    (Kubernetes.val = "kubernetes" ∧ ETCD.val = "etcd") ∧
    Hybird.val = "hybrid" ∧
    (CRD.val = "crd" ∧ KVStore.val = "kvstore") ∧
    (Strict.val = "strict" ∧ Probe.val = "probe" ∧ Partial.val = "partial") ∧
    TunnelMode.declared.map (fun m => m.val) = ["vxlan", "geneve", "disabled"] ∧
    Store.declared.map (fun m => m.val) = ["kubernetes", "etcd"] ∧
    NodePortMode.declared.map (fun m => m.val) = ["hybrid"] ∧
    IdentityAllocationMode.declared.map (fun m => m.val) = ["crd", "kvstore"] ∧
    KubeProxyReplacementMode.declared.map (fun m => m.val) = ["strict", "probe", "partial"] ∧
    (TunnelMode.declared.map (fun m => m.val)).Nodup ∧
    (Store.declared.map (fun m => m.val)).Nodup ∧
    (NodePortMode.declared.map (fun m => m.val)).Nodup ∧
    (IdentityAllocationMode.declared.map (fun m => m.val)).Nodup ∧
    (KubeProxyReplacementMode.declared.map (fun m => m.val)).Nodup := by
  decide

/-- C3: the document keys map one-to-one to the fields.  In `NetworkConfig`
Debug is bound to "debug", PSPEnabled to "psp", KubeProxy to "kubeproxy",
Hubble to "hubble", TunnelMode to "tunnel", Store to "store", IPv6 to "ipv6";
in `KubeProxy` Enabled to "disabled", ServiceHost to "k8sServiceHost",
ServicePort to "k8sServicePort"; in `Hubble` and `IPv6` Enabled to "enabled";
in `Nodeport` Enabled to "nodePortEnabled", Mode to "nodePortMode".  Within
every entity neither a field name nor a key occurs twice, the `KubeProxy`
field named Enabled is bound to the key "disabled", and no `KubeProxy` field
is bound to "enabled". -/
theorem C3_document_keys_one_to_one :
    (configFields NetworkConfig.fields).map (fun f => (f.name, f.key)) =
      [("Debug", "debug"), ("PSPEnabled", "psp"), ("KubeProxy", "kubeproxy"),
       ("Hubble", "hubble"), ("TunnelMode", "tunnel"), ("Store", "store"), ("IPv6", "ipv6")] ∧
    KubeProxy.fields.map (fun f => (f.name, f.key)) =
      [("Enabled", "disabled"), ("ServiceHost", "k8sServiceHost"),
       ("ServicePort", "k8sServicePort")] ∧
    Hubble.fields.map (fun f => (f.name, f.key)) = [("Enabled", "enabled")] ∧
    IPv6.fields.map (fun f => (f.name, f.key)) = [("Enabled", "enabled")] ∧
    Nodeport.fields.map (fun f => (f.name, f.key)) =
      [("Enabled", "nodePortEnabled"), ("Mode", "nodePortMode")] ∧
    ((NetworkConfig.fields.map (fun f => f.name)).Nodup ∧
      (NetworkConfig.fields.map (fun f => f.key)).Nodup) ∧
    ((KubeProxy.fields.map (fun f => f.name)).Nodup ∧
      (KubeProxy.fields.map (fun f => f.key)).Nodup) ∧
    ((Hubble.fields.map (fun f => f.name)).Nodup ∧ (Hubble.fields.map (fun f => f.key)).Nodup) ∧
    ((IPv6.fields.map (fun f => f.name)).Nodup ∧ (IPv6.fields.map (fun f => f.key)).Nodup) ∧
    ((Nodeport.fields.map (fun f => f.name)).Nodup ∧
      (Nodeport.fields.map (fun f => f.key)).Nodup) ∧
    keyOf KubeProxy.fields "Enabled" = some "disabled" ∧
    fieldOf KubeProxy.fields "disabled" = some "Enabled" ∧
    fieldOf KubeProxy.fields "enabled" = none := by
  decide

/-- C4, as stated, fails: the configuration fields of `NetworkConfig` are not
the eight fields Debug, PSPEnabled, KubeProxy, Hubble, TunnelMode, Store, IPv6
and Nodeport; `NetworkConfig` declares no field called Nodeport, binds no
field to a key of `Nodeport`, and none of its fields has the type `Nodeport`
or `*Nodeport`. -/
theorem C4_networkconfig_declares_no_nodeport :
    (configFields NetworkConfig.fields).map (fun f => f.name) ≠
      ["Debug", "PSPEnabled", "KubeProxy", "Hubble", "TunnelMode", "Store", "IPv6",
       "Nodeport"] ∧
    keyOf NetworkConfig.fields "Nodeport" = none ∧
    fieldOf NetworkConfig.fields "nodePortEnabled" = none ∧
    fieldOf NetworkConfig.fields "nodePortMode" = none ∧
    NetworkConfig.fields.all
      (fun f => f.goType != "Nodeport" && f.goType != "*Nodeport") = true := by
  decide

/-- C4, amended: `NetworkConfig` has the seven configuration fields Debug,
PSPEnabled, KubeProxy, Hubble, TunnelMode, Store and IPv6 (after the inline
`TypeMeta`), of the types `*bool`, `*bool`, `*KubeProxy`, `*Hubble`,
`*TunnelMode`, `*Store` and `*IPv6`.  `Nodeport` is an entity of its own,
`{Enabled: bool, Mode: NodePortMode}`: every pair of a boolean and a mode is
the content of a `Nodeport` value, and no field of `NetworkConfig` holds
one. -/
theorem C4_amended_seven_fields_and_standalone_nodeport :
    NetworkConfig.fields.map (fun f => f.name) =
      ["TypeMeta", "Debug", "PSPEnabled", "KubeProxy", "Hubble", "TunnelMode", "Store",
       "IPv6"] ∧
    (configFields NetworkConfig.fields).map (fun f => (f.name, f.goType)) =
      [("Debug", "*bool"), ("PSPEnabled", "*bool"), ("KubeProxy", "*KubeProxy"),
       ("Hubble", "*Hubble"), ("TunnelMode", "*TunnelMode"), ("Store", "*Store"),
       ("IPv6", "*IPv6")] ∧
    Nodeport.fields.map (fun f => (f.name, f.goType)) =
      [("Enabled", "bool"), ("Mode", "NodePortMode")] ∧
    (∀ (b : Bool) (m : NodePortMode), ∃ n : Nodeport, n.Enabled = b ∧ n.Mode = m) ∧
    NetworkConfig.fields.all
      (fun f => f.goType != "Nodeport" && f.goType != "*Nodeport") = true := by
  refine ⟨by decide, by decide, by decide, fun b m => ⟨⟨b, m⟩, rfl, rfl⟩, by decide⟩

/-- C10: optionality inside nested entities differs by entity.  The three
sub-fields of `KubeProxy` are pointers, each independently optional: every
combination of set and unset sub-fields is a `KubeProxy` value, among them
ServiceHost set with ServicePort unset, and ServicePort holds any 32-bit
signed integer, such as 0, -1 or 70000.  The sub-fields of `Hubble`, `IPv6`
and `Nodeport` are not pointers: every such entity carries a definite
boolean (and, for `Nodeport`, a definite mode) and is determined by it, so
there are exactly two `Hubble` values and two `IPv6` values. -/
theorem C10_nested_optionality :
    KubeProxy.fields.map (fun f => (f.name, isPointer f.goType, f.optional)) =
      [("Enabled", true, true), ("ServiceHost", true, true), ("ServicePort", true, true)] ∧
    (∀ (e : Option Bool) (h : Option String) (p : Option GoInt32),
      ∃ k : KubeProxy, k.Enabled = e ∧ k.ServiceHost = h ∧ k.ServicePort = p) ∧
    (∀ (e : Option Bool) (h : String),
      ∃ k : KubeProxy, k.Enabled = e ∧ k.ServiceHost = some h ∧ k.ServicePort = none) ∧
    (∀ i : Int, -2147483648 ≤ i → i ≤ 2147483647 →
      ∃ (k : KubeProxy) (p : GoInt32), k.ServicePort = some p ∧ p.val = i) ∧
    (∃ (k : KubeProxy) (p : GoInt32), k.ServicePort = some p ∧ p.val = 0) ∧
    (∃ (k : KubeProxy) (p : GoInt32), k.ServicePort = some p ∧ p.val = -1) ∧
    (∃ (k : KubeProxy) (p : GoInt32), k.ServicePort = some p ∧ p.val = 70000) ∧
    Hubble.fields.map (fun f => (f.name, isPointer f.goType, f.optional)) =
      [("Enabled", false, false)] ∧
    IPv6.fields.map (fun f => (f.name, isPointer f.goType, f.optional)) =
      [("Enabled", false, false)] ∧
    Nodeport.fields.map (fun f => (f.name, isPointer f.goType, f.optional)) =
      [("Enabled", false, false), ("Mode", false, false)] ∧
    (∀ h : Hubble, h = ⟨true⟩ ∨ h = ⟨false⟩) ∧
    (∀ v : IPv6, v = ⟨true⟩ ∨ v = ⟨false⟩) ∧
    (∀ n : Nodeport, ∃ (b : Bool) (m : NodePortMode), n = ⟨b, m⟩) ∧
    (∀ n n2 : Nodeport, n.Enabled = n2.Enabled → n.Mode = n2.Mode → n = n2) := by
  refine ⟨by decide, fun e h p => ⟨⟨e, h, p⟩, rfl, rfl, rfl⟩,
    fun e h => ⟨⟨e, some h, none⟩, rfl, rfl, rfl⟩,
    fun i h1 h2 => ⟨⟨none, none, some ⟨i, h1, h2⟩⟩, ⟨i, h1, h2⟩, rfl, rfl⟩,
    ⟨⟨none, none, some ⟨0, by decide⟩⟩, ⟨0, by decide⟩, rfl, rfl⟩,
    ⟨⟨none, none, some ⟨-1, by decide⟩⟩, ⟨-1, by decide⟩, rfl, rfl⟩,
    ⟨⟨none, none, some ⟨70000, by decide⟩⟩, ⟨70000, by decide⟩, rfl, rfl⟩,
    by decide, by decide, by decide, ?_, ?_, fun n => ⟨n.Enabled, n.Mode, rfl⟩, ?_⟩
  · rintro ⟨b⟩
    cases b <;> simp
  · rintro ⟨b⟩
    cases b <;> simp
  · rintro ⟨b, m⟩ ⟨b2, m2⟩ h1 h2
    simp only at h1 h2
    rw [h1, h2]

/-- C10 at a concrete port: 70000 lies in the 32-bit range, so some
`KubeProxy` holds it as its ServicePort. -/
theorem C10_nested_optionality_witness :
    ((-2147483648 : Int) ≤ 70000 ∧ (70000 : Int) ≤ 2147483647) ∧
    ∃ (k : KubeProxy) (p : GoInt32), k.ServicePort = some p ∧ p.val = 70000 :=
  ⟨by decide, C10_nested_optionality.2.2.2.1 70000 (by decide) (by decide)⟩

/-! ## Overlay merge -/

/-- C5, as stated, fails: the nested entities that `Merge` takes as whole
units are not KubeProxy, Hubble, IPv6 and Nodeport.  `NetworkConfig` has the
three nested entities KubeProxy, Hubble and IPv6; merging two configurations
that have every field set yields a configuration with seven set fields, none
of them a Nodeport. -/
theorem C5_merge_takes_no_nodeport :
    nestedEntities NetworkConfig.fields ≠ ["KubeProxy", "Hubble", "IPv6", "Nodeport"] ∧
    nestedEntities NetworkConfig.fields = ["KubeProxy", "Hubble", "IPv6"] ∧
    (Merge fullConfig fullConfig).setFields =
      ["Debug", "PSPEnabled", "KubeProxy", "Hubble", "TunnelMode", "Store", "IPv6"] ∧
    (Merge fullConfig fullConfig).setFields.all (fun n => n != "Nodeport") = true ∧
    Merge fullConfig fullConfig = fullConfig := by
  decide

/-- C5, amended: `Merge(base, overlay)` chooses field by field: each of the
seven top-level fields of `NetworkConfig` (Debug, PSPEnabled, KubeProxy,
Hubble, TunnelMode, Store, IPv6) is, in the result, the overlay's when the
overlay's is set and the base's otherwise, and the inline `TypeMeta` is the
overlay's unless the overlay's is the zero value.  A nested entity
(KubeProxy, Hubble, IPv6) is one field, taken as a whole: an overlay
`KubeProxy` with only ServiceHost set replaces a base `KubeProxy`
`{Enabled = true, ServiceHost = "h1", ServicePort = 6443}` in full, and the
result's ServicePort is unset.  The result sets no field beyond these seven,
so it holds no Nodeport.  Merging with the all-unset configuration, on
either side, gives the other configuration back. -/
theorem C5_merge_field_by_field :
    (∀ base overlay : NetworkConfig,
      (Merge base overlay).Debug = (if overlay.Debug.isSome then overlay.Debug else base.Debug) ∧
      (Merge base overlay).PSPEnabled =
        (if overlay.PSPEnabled.isSome then overlay.PSPEnabled else base.PSPEnabled) ∧
      (Merge base overlay).KubeProxy =
        (if overlay.KubeProxy.isSome then overlay.KubeProxy else base.KubeProxy) ∧
      (Merge base overlay).Hubble =
        (if overlay.Hubble.isSome then overlay.Hubble else base.Hubble) ∧
      (Merge base overlay).TunnelMode =
        (if overlay.TunnelMode.isSome then overlay.TunnelMode else base.TunnelMode) ∧
      (Merge base overlay).Store = (if overlay.Store.isSome then overlay.Store else base.Store) ∧
      (Merge base overlay).IPv6 = (if overlay.IPv6.isSome then overlay.IPv6 else base.IPv6)) ∧
    (∀ base overlay : NetworkConfig,
      (Merge base overlay).TypeMeta =
        (if overlay.TypeMeta = ⟨"", ""⟩ then base.TypeMeta else overlay.TypeMeta)) ∧
    (∀ (base overlay : NetworkConfig) (h : String),
      base.KubeProxy = some ⟨some true, some "h1", some ⟨6443, by decide⟩⟩ →
      overlay.KubeProxy = some ⟨none, some h, none⟩ →
      (Merge base overlay).KubeProxy = some ⟨none, some h, none⟩ ∧
      (Merge base overlay).servicePort = none ∧
      (Merge base overlay).serviceHost = some h) ∧
    (∀ base overlay : NetworkConfig,
      (Merge base overlay).setFields.all
        (fun n => decide (n ∈ ["Debug", "PSPEnabled", "KubeProxy", "Hubble", "TunnelMode",
          "Store", "IPv6"])) = true) ∧
    nestedEntities NetworkConfig.fields = ["KubeProxy", "Hubble", "IPv6"] ∧
    (∀ c : NetworkConfig, Merge c NetworkConfig.unset = c) ∧
    (∀ c : NetworkConfig, Merge NetworkConfig.unset c = c) := by
  refine ⟨fun base overlay => ?_, fun base overlay => rfl, ?_, ?_, by decide, ?_, ?_⟩
  · simp only [Merge, mergeField_eq_ite]
    exact ⟨trivial, trivial, trivial, trivial, trivial, trivial, trivial⟩
  · intro base overlay h hb ho
    simp [Merge, mergeField, NetworkConfig.servicePort, NetworkConfig.serviceHost, ho]
  · intro base overlay
    exact setFields_all_declared _
  · rintro ⟨tm, d, p, k, h, t, s, i⟩
    simp [Merge, mergeField, mergeTypeMeta, NetworkConfig.unset]
  · rintro ⟨tm, d, p, k, h, t, s, i⟩
    simp [Merge, mergeField_none_left, mergeTypeMeta_zero_left, NetworkConfig.unset]

/-- C5 at the example of the specification: the base holds `KubeProxy`
`{Enabled = true, ServiceHost = "h1", ServicePort = 6443}`, the overlay sets
only ServiceHost, to "h2". -/
theorem C5_merge_field_by_field_witness :
    (withKubeProxy ⟨some true, some "h1", some ⟨6443, by decide⟩⟩).KubeProxy =
      some ⟨some true, some "h1", some ⟨6443, by decide⟩⟩ ∧
    (withKubeProxy ⟨none, some "h2", none⟩).KubeProxy = some ⟨none, some "h2", none⟩ ∧
    (Merge (withKubeProxy ⟨some true, some "h1", some ⟨6443, by decide⟩⟩)
        (withKubeProxy ⟨none, some "h2", none⟩)).KubeProxy = some ⟨none, some "h2", none⟩ ∧
    (Merge (withKubeProxy ⟨some true, some "h1", some ⟨6443, by decide⟩⟩)
        (withKubeProxy ⟨none, some "h2", none⟩)).servicePort = none ∧
    (Merge (withKubeProxy ⟨some true, some "h1", some ⟨6443, by decide⟩⟩)
        (withKubeProxy ⟨none, some "h2", none⟩)).serviceHost = some "h2" :=
  ⟨rfl, rfl, C5_merge_field_by_field.2.2.1 _ _ "h2" rfl rfl⟩

/-! ## Defaulting -/

/-- C6, as stated, fails: `ApplyDefaults` sets no Nodeport.Enabled.
Defaulting the all-unset configuration sets the six fields Debug,
PSPEnabled, Hubble, TunnelMode, Store and IPv6 and nothing else, so the
result holds no Nodeport; and Nodeport.Enabled is a plain `bool`, not a
pointer, so it has no unset state to default from. -/
theorem C6_defaulting_sets_no_nodeport :
    (ApplyDefaults NetworkConfig.unset).setFields ≠
      ["Debug", "PSPEnabled", "Hubble", "TunnelMode", "Store", "IPv6", "Nodeport"] ∧
    (ApplyDefaults NetworkConfig.unset).setFields =
      ["Debug", "PSPEnabled", "Hubble", "TunnelMode", "Store", "IPv6"] ∧
    (ApplyDefaults NetworkConfig.unset).setFields.all (fun n => n != "Nodeport") = true ∧
    (ApplyDefaults fullConfig).setFields.all (fun n => n != "Nodeport") = true ∧
    Nodeport.fields.map (fun f => (f.name, isPointer f.goType)) =
      [("Enabled", false), ("Mode", false)] := by
  decide

/-- C6, amended: `ApplyDefaults` never changes a field that is already set,
whatever its value (false and the empty string included), leaves the inline
`TypeMeta` as it is, and sets each unset field to its documented default:
Debug false, PSPEnabled false, Hubble.Enabled false, TunnelMode vxlan, Store
kubernetes, IPv6.Enabled false, while an unset KubeProxy stays unset.  The
result sets no field beyond the seven of `NetworkConfig`, so it holds no
Nodeport.  The result is complete, `ApplyDefaults c = c` for every complete
`c`, and `ApplyDefaults` is idempotent. -/
theorem C6_apply_defaults :
    (∀ c : NetworkConfig,
      (∀ v, c.Debug = some v → (ApplyDefaults c).Debug = some v) ∧
      (∀ v, c.PSPEnabled = some v → (ApplyDefaults c).PSPEnabled = some v) ∧
      (∀ v, c.KubeProxy = some v → (ApplyDefaults c).KubeProxy = some v) ∧
      (∀ v, c.Hubble = some v → (ApplyDefaults c).Hubble = some v) ∧
      (∀ v, c.TunnelMode = some v → (ApplyDefaults c).TunnelMode = some v) ∧
      (∀ v, c.Store = some v → (ApplyDefaults c).Store = some v) ∧
      (∀ v, c.IPv6 = some v → (ApplyDefaults c).IPv6 = some v)) ∧
    (∀ c : NetworkConfig, (ApplyDefaults c).TypeMeta = c.TypeMeta) ∧
    (∀ c : NetworkConfig,
      (c.Debug = none → (ApplyDefaults c).Debug = some false) ∧
      (c.PSPEnabled = none → (ApplyDefaults c).PSPEnabled = some false) ∧
      (c.Hubble = none → (ApplyDefaults c).Hubble = some ⟨false⟩) ∧
      (c.TunnelMode = none → (ApplyDefaults c).TunnelMode = some ⟨"vxlan"⟩) ∧
      (c.Store = none → (ApplyDefaults c).Store = some ⟨"kubernetes"⟩) ∧
      (c.IPv6 = none → (ApplyDefaults c).IPv6 = some ⟨false⟩) ∧
      (c.KubeProxy = none → (ApplyDefaults c).KubeProxy = none)) ∧
    (∀ c : NetworkConfig,
      (ApplyDefaults c).setFields.all
        (fun n => decide (n ∈ ["Debug", "PSPEnabled", "KubeProxy", "Hubble", "TunnelMode",
          "Store", "IPv6"])) = true) ∧
    (∀ c : NetworkConfig, (ApplyDefaults c).IsComplete) ∧
    (∀ c : NetworkConfig, c.IsComplete → ApplyDefaults c = c) ∧
    (∀ c : NetworkConfig, ApplyDefaults (ApplyDefaults c) = ApplyDefaults c) := by
  refine ⟨?_, fun c => rfl, ?_, fun c => setFields_all_declared _, ?_, ?_, ?_⟩
  · rintro ⟨tm, d, p, k, h, t, s, i⟩
    simp only [ApplyDefaults]
    refine ⟨?_, ?_, ?_, ?_, ?_, ?_, ?_⟩ <;> intro v hv <;> simp only [hv, defaultField]
  · rintro ⟨tm, d, p, k, h, t, s, i⟩
    simp only [ApplyDefaults]
    refine ⟨?_, ?_, ?_, ?_, ?_, ?_, ?_⟩ <;> intro hv <;>
      simp only [hv, defaultField, VXLan, Kubernetes]
  · rintro ⟨tm, d, p, k, h, t, s, i⟩
    cases d <;> cases p <;> cases h <;> cases t <;> cases s <;> cases i <;>
      simp [ApplyDefaults, defaultField, NetworkConfig.IsComplete]
  · rintro ⟨tm, d, p, k, h, t, s, i⟩ hc
    simp only [NetworkConfig.IsComplete, Option.isSome_iff_exists] at hc
    obtain ⟨⟨d, rfl⟩, ⟨p, rfl⟩, ⟨h, rfl⟩, ⟨t, rfl⟩, ⟨s, rfl⟩, ⟨i, rfl⟩⟩ := hc
    rfl
  · rintro ⟨tm, d, p, k, h, t, s, i⟩
    cases d <;> cases p <;> cases h <;> cases t <;> cases s <;> cases i <;> rfl

/-- C6 at a concrete configuration: Debug is explicitly false, TunnelMode is
explicitly the empty string, everything else is unset; after defaulting, the
configuration is complete and a second pass changes nothing. -/
theorem C6_apply_defaults_witness :
    (ApplyDefaults { NetworkConfig.unset with
        Debug := some false, TunnelMode := some ⟨""⟩ }).IsComplete ∧
    ApplyDefaults (ApplyDefaults { NetworkConfig.unset with
        Debug := some false, TunnelMode := some ⟨""⟩ }) =
      ApplyDefaults { NetworkConfig.unset with Debug := some false, TunnelMode := some ⟨""⟩ } :=
  ⟨by decide, C6_apply_defaults.2.2.2.2.2.1 _ (by decide)⟩

/-! ## Validation -/

/-- C7, as stated, fails: the enumerated fields that `Validate` checks are
not TunnelMode, Store and Nodeport.Mode.  `NetworkConfig` has the two
enumerated fields TunnelMode and Store, and none of its nested entities has
one; on the configuration that sets both outside their registries `Validate`
reports two errors, for TunnelMode and for Store, and none for a
Nodeport.Mode. -/
theorem C7_validate_checks_no_nodeport_mode :
    enumPaths NetworkConfig.fields ≠ ["TunnelMode", "Store", "Nodeport.Mode"] ∧
    enumPaths NetworkConfig.fields = ["TunnelMode", "Store"] ∧
    enumFields NetworkConfig.fields = ["TunnelMode", "Store"] ∧
    nestedEntities NetworkConfig.fields = ["KubeProxy", "Hubble", "IPv6"] ∧
    enumFields KubeProxy.fields = [] ∧ enumFields Hubble.fields = [] ∧
    enumFields IPv6.fields = [] ∧
    enumFields Nodeport.fields = ["Mode"] ∧
    (Validate badEnumConfig).map (fun e => e.field) = ["TunnelMode", "Store"] ∧
    (Validate badEnumConfig).all (fun e => e.field != "Nodeport.Mode") = true := by
  decide

/-- C7, amended: `Validate` enforces enum membership and accumulates.  The
`InvalidEnumValue` errors of a configuration are exactly one error for each
set enumerated field of `NetworkConfig` whose value is outside the closed
set of its registry (TunnelMode outside {vxlan, geneve, disabled}, Store
outside {kubernetes, etcd}) and none for a field that is unset or inside it,
so there are at most two.  TunnelMode "gre" is reported and "geneve" is not,
and Store "mongo" together with TunnelMode "gre" yields two errors from one
call.  Every error that `Validate` reports names TunnelMode, Store,
KubeProxy.ServiceHost or KubeProxy.ServicePort; none names a
Nodeport.Mode. -/
theorem C7_validate_enum_membership :
    (∀ cfg : NetworkConfig,
      errorsOfKind .InvalidEnumValue (Validate cfg) =
        (cfg.TunnelMode.toList.filter
            (fun m => decide (m.val ∉ ["vxlan", "geneve", "disabled"]))).map
          (fun m => ⟨"TunnelMode", .InvalidEnumValue, .str m.val⟩) ++
        (cfg.Store.toList.filter
            (fun m => decide (m.val ∉ ["kubernetes", "etcd"]))).map
          (fun m => ⟨"Store", .InvalidEnumValue, .str m.val⟩)) ∧
    (∀ cfg : NetworkConfig,
      (errorsOfKind .InvalidEnumValue (Validate cfg)).length =
        (cfg.TunnelMode.toList.filter
            (fun m => decide (m.val ∉ ["vxlan", "geneve", "disabled"]))).length +
        (cfg.Store.toList.filter
            (fun m => decide (m.val ∉ ["kubernetes", "etcd"]))).length) ∧
    (∀ cfg : NetworkConfig,
      (⟨"TunnelMode", .InvalidEnumValue, .str "gre"⟩ : ValidationError) ∈
        Validate { cfg with TunnelMode := some ⟨"gre"⟩ }) ∧
    (∀ cfg : NetworkConfig,
      (errorsOfKind .InvalidEnumValue
        (Validate { cfg with TunnelMode := some ⟨"geneve"⟩ })).all
          (fun e => e.field != "TunnelMode") = true) ∧
    Validate { NetworkConfig.unset with TunnelMode := some ⟨"geneve"⟩ } = [] ∧
    (∀ cfg : NetworkConfig,
      errorsOfKind .InvalidEnumValue
        (Validate { cfg with Store := some ⟨"mongo"⟩, TunnelMode := some ⟨"gre"⟩ }) =
          [⟨"TunnelMode", .InvalidEnumValue, .str "gre"⟩,
           ⟨"Store", .InvalidEnumValue, .str "mongo"⟩]) ∧
    (Validate { NetworkConfig.unset with
        Store := some ⟨"mongo"⟩, TunnelMode := some ⟨"gre"⟩ }).length = 2 ∧
    (∀ cfg : NetworkConfig,
      (errorsOfKind .InvalidEnumValue (Validate cfg)).length ≤ 2) ∧
    (∀ cfg : NetworkConfig,
      (Validate cfg).all
        (fun e => decide (e.field ∈ ["TunnelMode", "Store", "KubeProxy.ServiceHost",
          "KubeProxy.ServicePort"])) = true) ∧
    enumPaths NetworkConfig.fields = ["TunnelMode", "Store"] := by
  have key : ∀ cfg : NetworkConfig,
      errorsOfKind .InvalidEnumValue (Validate cfg) =
        (cfg.TunnelMode.toList.filter
            (fun m => decide (m.val ∉ ["vxlan", "geneve", "disabled"]))).map
          (fun m => ⟨"TunnelMode", .InvalidEnumValue, .str m.val⟩) ++
        (cfg.Store.toList.filter
            (fun m => decide (m.val ∉ ["kubernetes", "etcd"]))).map
          (fun m => ⟨"Store", .InvalidEnumValue, .str m.val⟩) := by
    intro cfg
    rw [invalidEnum_Validate]
    congr 1
    · unfold validateTunnelMode
      cases h : cfg.TunnelMode with
      | none => rfl
      | some m =>
        by_cases hv : m.IsValid = true
        · have hm := (tunnelMode_isValid_iff m).1 hv
          have hd : decide (m.val ∉ ["vxlan", "geneve", "disabled"]) = false :=
            decide_eq_false (not_not.2 hm)
          dsimp only
          rw [if_pos hv]
          simp only [Option.toList, List.filter, hd, List.map]
        · have hm : m.val ∉ ["vxlan", "geneve", "disabled"] :=
            fun hm => hv ((tunnelMode_isValid_iff m).2 hm)
          have hd : decide (m.val ∉ ["vxlan", "geneve", "disabled"]) = true :=
            decide_eq_true hm
          dsimp only
          rw [if_neg hv]
          simp only [Option.toList, List.filter, hd, List.map]
    · unfold validateStore
      cases h : cfg.Store with
      | none => rfl
      | some m =>
        by_cases hv : m.IsValid = true
        · have hm := (store_isValid_iff m).1 hv
          have hd : decide (m.val ∉ ["kubernetes", "etcd"]) = false :=
            decide_eq_false (not_not.2 hm)
          dsimp only
          rw [if_pos hv]
          simp only [Option.toList, List.filter, hd, List.map]
        · have hm : m.val ∉ ["kubernetes", "etcd"] :=
            fun hm => hv ((store_isValid_iff m).2 hm)
          have hd : decide (m.val ∉ ["kubernetes", "etcd"]) = true :=
            decide_eq_true hm
          dsimp only
          rw [if_neg hv]
          simp only [Option.toList, List.filter, hd, List.map]
  refine ⟨key, ?_, ?_, ?_, by decide, ?_, by decide, ?_, Validate_fields, by decide⟩
  · intro cfg
    rw [key cfg]
    simp
  · intro cfg
    have h := key { cfg with TunnelMode := some ⟨"gre"⟩ }
    have hmem : (⟨"TunnelMode", .InvalidEnumValue, .str "gre"⟩ : ValidationError) ∈
        errorsOfKind .InvalidEnumValue (Validate { cfg with TunnelMode := some ⟨"gre"⟩ }) := by
      rw [h]
      simp [List.filter_cons]
    unfold errorsOfKind at hmem
    exact (List.mem_filter.1 hmem).1
  · intro cfg
    rw [key]
    rw [List.all_eq_true]
    intro e he
    simp [List.filter_cons] at he
    obtain ⟨m, _, rfl⟩ := he
    simp
  · intro cfg
    rw [key]
    simp [List.filter_cons]
  · intro cfg
    rw [key cfg]
    cases cfg.TunnelMode <;> cases cfg.Store <;>
      simp [List.filter_cons] <;> (repeat' split) <;> simp

/-- C8: `KubeProxy.ServiceHost` and `KubeProxy.ServicePort` are jointly
mandatory.  For every configuration in which exactly one of the two is set,
`Validate` returns exactly one `MissingCompanionField` error, and it names
the missing field of `KubeProxy`; for every configuration in which both are
set or both are unset (an unset `KubeProxy` included) it returns none. -/
theorem C8_companion_fields :
    (∀ cfg : NetworkConfig,
      cfg.serviceHost.isSome = true → cfg.servicePort.isSome = false →
      errorsOfKind .MissingCompanionField (Validate cfg) =
        [⟨"KubeProxy.ServicePort", .MissingCompanionField, .unset⟩]) ∧
    (∀ cfg : NetworkConfig,
      cfg.serviceHost.isSome = false → cfg.servicePort.isSome = true →
      errorsOfKind .MissingCompanionField (Validate cfg) =
        [⟨"KubeProxy.ServiceHost", .MissingCompanionField, .unset⟩]) ∧
    (∀ cfg : NetworkConfig,
      cfg.serviceHost.isSome ≠ cfg.servicePort.isSome →
      (errorsOfKind .MissingCompanionField (Validate cfg)).length = 1) ∧
    (∀ cfg : NetworkConfig,
      cfg.serviceHost.isSome = cfg.servicePort.isSome →
      errorsOfKind .MissingCompanionField (Validate cfg) = []) ∧
    (∀ cfg : NetworkConfig, cfg.KubeProxy = none →
      errorsOfKind .MissingCompanionField (Validate cfg) = []) := by
  refine ⟨?_, ?_, ?_, ?_, ?_⟩
  · intro cfg hh hp
    rw [missingCompanion_Validate]
    unfold validateCompanion
    unfold NetworkConfig.serviceHost at hh
    unfold NetworkConfig.servicePort at hp
    cases hk : cfg.KubeProxy with
    | none => simp [hk] at hh
    | some kp =>
      simp only [hk] at hh hp
      cases h1 : kp.ServiceHost <;> cases h2 : kp.ServicePort <;> simp_all
  · intro cfg hh hp
    rw [missingCompanion_Validate]
    unfold validateCompanion
    unfold NetworkConfig.serviceHost at hh
    unfold NetworkConfig.servicePort at hp
    cases hk : cfg.KubeProxy with
    | none => simp [hk] at hp
    | some kp =>
      simp only [hk] at hh hp
      cases h1 : kp.ServiceHost <;> cases h2 : kp.ServicePort <;> simp_all
  · intro cfg hne
    rw [missingCompanion_Validate]
    unfold validateCompanion
    unfold NetworkConfig.serviceHost NetworkConfig.servicePort at hne
    cases hk : cfg.KubeProxy with
    | none => simp [hk] at hne
    | some kp =>
      simp only [hk] at hne
      cases h1 : kp.ServiceHost <;> cases h2 : kp.ServicePort <;> simp_all
  · intro cfg heq
    rw [missingCompanion_Validate]
    unfold validateCompanion
    unfold NetworkConfig.serviceHost NetworkConfig.servicePort at heq
    cases hk : cfg.KubeProxy with
    | none => rfl
    | some kp =>
      simp only [hk] at heq
      cases h1 : kp.ServiceHost <;> cases h2 : kp.ServicePort <;> simp_all
  · intro cfg hk
    rw [missingCompanion_Validate]
    unfold validateCompanion
    simp [hk]

/-- C8 at the configuration of the specification: `KubeProxy` with Enabled
true and ServiceHost "10.0.0.1", ServicePort omitted. -/
theorem C8_companion_fields_witness :
    (withKubeProxy ⟨some true, some "10.0.0.1", none⟩).serviceHost.isSome = true ∧
    (withKubeProxy ⟨some true, some "10.0.0.1", none⟩).servicePort.isSome = false ∧
    errorsOfKind .MissingCompanionField
        (Validate (withKubeProxy ⟨some true, some "10.0.0.1", none⟩)) =
      [⟨"KubeProxy.ServicePort", .MissingCompanionField, .unset⟩] :=
  ⟨rfl, rfl, C8_companion_fields.1 _ rfl rfl⟩

/-- C9: `KubeProxy.ServicePort` is bounded.  For every configuration with
ServiceHost set and ServicePort set to `p`, `Validate` reports an
`OutOfRange` error if and only if `p` is outside `[1, 65535]`, and then it
is the one error carrying `p`.  So 70000 is reported, 6443 with ServiceHost
set passes, and every accepted configuration with ServicePort set has
`1 ≤ ServicePort ≤ 65535`. -/
theorem C9_service_port_range :
    (∀ (cfg : NetworkConfig) (h : String) (p : GoInt32),
      cfg.serviceHost = some h → cfg.servicePort = some p →
      ((∃ e ∈ Validate cfg, e.kind = ErrorKind.OutOfRange) ↔ ¬ (1 ≤ p.val ∧ p.val ≤ 65535))) ∧
    (∀ (cfg : NetworkConfig) (h : String) (p : GoInt32),
      cfg.serviceHost = some h → cfg.servicePort = some p →
      ¬ (1 ≤ p.val ∧ p.val ≤ 65535) →
      errorsOfKind .OutOfRange (Validate cfg) =
        [⟨"KubeProxy.ServicePort", .OutOfRange, .int p.val⟩]) ∧
    (∀ (e : Option Bool) (h : String),
      Validate (withKubeProxy ⟨e, some h, some ⟨70000, by decide⟩⟩) =
        [⟨"KubeProxy.ServicePort", .OutOfRange, .int 70000⟩]) ∧
    (∀ (e : Option Bool) (h : String),
      Validate (withKubeProxy ⟨e, some h, some ⟨6443, by decide⟩⟩) = []) ∧
    (∀ (cfg : NetworkConfig) (p : GoInt32),
      Accepted cfg → cfg.servicePort = some p → 1 ≤ p.val ∧ p.val ≤ 65535) := by
  have port : ∀ (cfg : NetworkConfig) (p : GoInt32), cfg.servicePort = some p →
      validateServicePort cfg =
        if 1 ≤ p.val ∧ p.val ≤ 65535 then []
        else [⟨"KubeProxy.ServicePort", .OutOfRange, .int p.val⟩] := by
    intro cfg p hp
    unfold NetworkConfig.servicePort at hp
    unfold validateServicePort
    cases hk : cfg.KubeProxy with
    | none => simp [hk] at hp
    | some kp =>
      simp only [hk] at hp
      simp only [hp]
  refine ⟨?_, ?_, ?_, ?_, ?_⟩
  · intro cfg h p _ hp
    constructor
    · rintro ⟨e, he, hk⟩ hr
      have hmem : e ∈ errorsOfKind .OutOfRange (Validate cfg) := by
        unfold errorsOfKind
        exact List.mem_filter.2 ⟨he, by simp [hk]⟩
      rw [outOfRange_Validate, port cfg p hp, if_pos hr] at hmem
      simp at hmem
    · intro hr
      refine ⟨⟨"KubeProxy.ServicePort", .OutOfRange, .int p.val⟩, ?_, rfl⟩
      have hmem : (⟨"KubeProxy.ServicePort", .OutOfRange, .int p.val⟩ : ValidationError) ∈
          errorsOfKind .OutOfRange (Validate cfg) := by
        rw [outOfRange_Validate, port cfg p hp, if_neg hr]
        simp
      unfold errorsOfKind at hmem
      exact (List.mem_filter.1 hmem).1
  · intro cfg h p _ hp hr
    rw [outOfRange_Validate, port cfg p hp, if_neg hr]
  · intro e h
    cases e <;> rfl
  · intro e h
    cases e <;> rfl
  · intro cfg p hacc hp
    by_contra hr
    have h1 : errorsOfKind .OutOfRange (Validate cfg) =
        [⟨"KubeProxy.ServicePort", .OutOfRange, .int p.val⟩] := by
      rw [outOfRange_Validate, port cfg p hp, if_neg hr]
    unfold Accepted at hacc
    rw [hacc] at h1
    simp [errorsOfKind] at h1

/-- C9 at the ports of the specification: with ServiceHost "10.0.0.1" set,
port 70000 is outside `[1, 65535]` and `Validate` reports exactly the
`OutOfRange` error that carries it. -/
theorem C9_service_port_range_witness :
    (withKubeProxy ⟨none, some "10.0.0.1", some ⟨70000, by decide⟩⟩).serviceHost =
      some "10.0.0.1" ∧
    (withKubeProxy ⟨none, some "10.0.0.1", some ⟨70000, by decide⟩⟩).servicePort =
      some ⟨70000, by decide⟩ ∧
    ¬ ((1 : Int) ≤ 70000 ∧ (70000 : Int) ≤ 65535) ∧
    errorsOfKind .OutOfRange
        (Validate (withKubeProxy ⟨none, some "10.0.0.1", some ⟨70000, by decide⟩⟩)) =
      [⟨"KubeProxy.ServicePort", .OutOfRange, .int 70000⟩] :=
  ⟨rfl, rfl, by decide,
    C9_service_port_range.2.1 _ "10.0.0.1" ⟨70000, by decide⟩ rfl rfl (by decide)⟩

end Cilium
